import Mathlib

/-!
Verification of the exchange-economy equilibrium solver in
`src/inauguralproject/inauguralproject.py` (class `ExchangeEconomyClass`).

Shallow embedding conventions:
* Python floats are modelled as exact rationals (`ℚ`); the real-power
  utilities `x ** e` are modelled over `ℝ` with `Real.rpow`.
* Fallible Python arithmetic is modelled with `Except PyErr`: a division
  raises `ZeroDivisionError` when the divisor is zero, and a reference to a
  name the module never binds raises `NameError`.
* The module's only import is `from types import SimpleNamespace`
  (line 19 of the source); in particular the name `np` is unbound, so the
  expression `np.abs(eps1)` in both solver loops raises a `NameError`
  whenever it is evaluated.
-/

/-- Errors a call into the module can raise.  `nameErrorNp` is Python's
`NameError: name 'np' is not defined`; `zeroDivision` is
`ZeroDivisionError`; `invalidParameter` stands for the explicit
invalid-parameter error (e.g. `ValueError`) that a validating solver
variant would raise; `outOfFuel` is a modelling artifact marking
exhaustion of the fuel bound of the `while True` loop. -/
inductive PyErr where
  | nameErrorNp
  | zeroDivision
  | invalidParameter
  | outOfFuel
deriving DecidableEq

/-- The parameter namespace `self.par`: preference exponents `alpha`
(agent A) and `beta` (agent B) and agent A's endowments `w1A`, `w2A`. -/
structure Par where
  alpha : ℚ
  beta : ℚ
  w1A : ℚ
  w2A : ℚ
deriving DecidableEq

/-- The parameters installed by `ExchangeEconomyClass.__init__`:
`alpha = 1/3`, `beta = 2/3`, `w1A = 0.8`, `w2A = 0.3`. -/
def par0 : Par := Par.mk (1/3) (2/3) (4/5) (3/10)

/-- Python division: raises `ZeroDivisionError` when the divisor is `0`. -/
def pyDiv (a b : ℚ) : Except PyErr ℚ :=
  if b = 0 then Except.error PyErr.zeroDivision else Except.ok (a / b)

/-- Whether the module binds the name `np`.  The module's import list is
`from types import SimpleNamespace` only, so it does not. -/
def numpyImported : Bool := false

/-- The expression `np.abs(q)`: a `NameError` when `np` is unbound,
otherwise the absolute value. -/
def npAbs (q : ℚ) : Except PyErr ℚ :=
  if numpyImported then Except.ok |q| else Except.error PyErr.nameErrorNp

/-- `demand_A(self, p1)`: `x1A = alpha*(p1*w1A+w2A)/p1`,
`x2A = (1-alpha)*(p1*w1A+w2A)`. -/
def demand_A (par : Par) (p1 : ℚ) : Except PyErr (ℚ × ℚ) :=
  match pyDiv (par.alpha * (p1 * par.w1A + par.w2A)) p1 with
  | Except.error e => Except.error e
  | Except.ok x1A => Except.ok (x1A, (1 - par.alpha) * (p1 * par.w1A + par.w2A))

/-- `demand_B(self, p1)`: `x1B = beta*(p1*(1-w1A)+(1-w2A))/p1`,
`x2B = (1-beta)*(p1*(1-w1A)+(1-w2A))`. -/
def demand_B (par : Par) (p1 : ℚ) : Except PyErr (ℚ × ℚ) :=
  match pyDiv (par.beta * (p1 * (1 - par.w1A) + (1 - par.w2A))) p1 with
  | Except.error e => Except.error e
  | Except.ok x1B => Except.ok (x1B, (1 - par.beta) * (p1 * (1 - par.w1A) + (1 - par.w2A)))

/-- `check_market_clearing(self, p1)`: excess demands
`eps1 = x1A-w1A + x1B-(1-w1A)` and `eps2 = x2A-w2A + x2B-(1-w2A)`. -/
def check_market_clearing (par : Par) (p1 : ℚ) : Except PyErr (ℚ × ℚ) :=
  match demand_A par p1 with
  | Except.error e => Except.error e
  | Except.ok (x1A, x2A) =>
    match demand_B par p1 with
    | Except.error e => Except.error e
    | Except.ok (x1B, x2B) =>
      Except.ok (x1A - par.w1A + x1B - (1 - par.w1A),
                 x2A - par.w2A + x2B - (1 - par.w2A))

/-- Closed form of `eps1` at a nonzero price. -/
def eps1val (par : Par) (p1 : ℚ) : ℚ :=
  par.alpha * (p1 * par.w1A + par.w2A) / p1 - par.w1A
    + par.beta * (p1 * (1 - par.w1A) + (1 - par.w2A)) / p1 - (1 - par.w1A)

/-- Closed form of `eps2` at a nonzero price. -/
def eps2val (par : Par) (p1 : ℚ) : ℚ :=
  (1 - par.alpha) * (p1 * par.w1A + par.w2A) - par.w2A
    + (1 - par.beta) * (p1 * (1 - par.w1A) + (1 - par.w2A)) - (1 - par.w2A)

lemma demand_A_eq (par : Par) {p1 : ℚ} (hp : p1 ≠ 0) :
    demand_A par p1 =
      Except.ok (par.alpha * (p1 * par.w1A + par.w2A) / p1,
                 (1 - par.alpha) * (p1 * par.w1A + par.w2A)) := by
  simp [demand_A, pyDiv, hp]

lemma demand_B_eq (par : Par) {p1 : ℚ} (hp : p1 ≠ 0) :
    demand_B par p1 =
      Except.ok (par.beta * (p1 * (1 - par.w1A) + (1 - par.w2A)) / p1,
                 (1 - par.beta) * (p1 * (1 - par.w1A) + (1 - par.w2A))) := by
  simp [demand_B, pyDiv, hp]

lemma check_market_clearing_eq (par : Par) {p1 : ℚ} (hp : p1 ≠ 0) :
    check_market_clearing par p1 = Except.ok (eps1val par p1, eps2val par p1) := by
  rw [check_market_clearing, demand_A_eq par hp, demand_B_eq par hp]
  rfl

lemma check_market_clearing_zero (par : Par) :
    check_market_clearing par 0 = Except.error PyErr.zeroDivision := by
  simp [check_market_clearing, demand_A, pyDiv]

/-- C2 Walras' law: whenever `check_market_clearing` returns a pair
`(eps1, eps2)` at a nonzero price `p1`, the exact rational identity
`p1*eps1 + eps2 = 0` holds, so `eps2` is determined by `eps1` and `p1`. -/
theorem walras_law (par : Par) (p1 e1 e2 : ℚ) (hp : p1 ≠ 0)
    (h : check_market_clearing par p1 = Except.ok (e1, e2)) :
    p1 * e1 + e2 = 0 := by
  rw [check_market_clearing_eq par hp] at h
  simp only [Except.ok.injEq, Prod.mk.injEq] at h
  obtain ⟨h1, h2⟩ := h
  subst h1
  subst h2
  unfold eps1val eps2val
  field_simp
  ring

/-- Witness for C2 at the constructor parameters with `p1 = 2`. -/
theorem walras_law_witness :
    ((2 : ℚ) ≠ 0 ∧ check_market_clearing par0 2 = Except.ok (-19/60, 19/30)) ∧
      (2 : ℚ) * (-19/60) + 19/30 = 0 := by
  have hp : (2 : ℚ) ≠ 0 := by norm_num
  have hc : check_market_clearing par0 2 = Except.ok (-19/60, 19/30) := by
    rw [check_market_clearing_eq par0 hp]
    unfold eps1val eps2val par0
    norm_num
  exact ⟨⟨hp, hc⟩, walras_law par0 2 (-19/60) (19/30) hp hc⟩

/-- C7 non-negative demands: for exponents in `(0,1)`, endowments in
`[0,1]`, a positive price and non-negative wealths, both `demand_A` and
`demand_B` succeed and return non-negative quantity pairs. -/
theorem demand_nonneg (par : Par) (p1 : ℚ)
    (ha0 : 0 < par.alpha) (ha1 : par.alpha < 1)
    (hb0 : 0 < par.beta) (hb1 : par.beta < 1)
    (hw1 : 0 ≤ par.w1A) (hw1u : par.w1A ≤ 1)
    (hw2 : 0 ≤ par.w2A) (hw2u : par.w2A ≤ 1)
    (hp : 0 < p1)
    (hWA : 0 ≤ p1 * par.w1A + par.w2A)
    (hWB : 0 ≤ p1 * (1 - par.w1A) + (1 - par.w2A)) :
    ∃ x1A x2A x1B x2B,
      demand_A par p1 = Except.ok (x1A, x2A) ∧
      demand_B par p1 = Except.ok (x1B, x2B) ∧
      0 ≤ x1A ∧ 0 ≤ x2A ∧ 0 ≤ x1B ∧ 0 ≤ x2B := by
  refine ⟨_, _, _, _, demand_A_eq par hp.ne', demand_B_eq par hp.ne', ?_, ?_, ?_, ?_⟩
  · exact div_nonneg (mul_nonneg ha0.le hWA) hp.le
  · exact mul_nonneg (by linarith) hWA
  · exact div_nonneg (mul_nonneg hb0.le hWB) hp.le
  · exact mul_nonneg (by linarith) hWB

/-- Witness for C7 at the constructor parameters with `p1 = 1`. -/
theorem demand_nonneg_witness :
    (0 < par0.alpha ∧ 0 < (1 : ℚ)) ∧
      (∃ x1A x2A x1B x2B,
        demand_A par0 1 = Except.ok (x1A, x2A) ∧
        demand_B par0 1 = Except.ok (x1B, x2B) ∧
        0 ≤ x1A ∧ 0 ≤ x2A ∧ 0 ≤ x1B ∧ 0 ≤ x2B) := by
  refine ⟨⟨by norm_num [par0], by norm_num⟩, ?_⟩
  exact demand_nonneg par0 1 (by norm_num [par0]) (by norm_num [par0])
    (by norm_num [par0]) (by norm_num [par0]) (by norm_num [par0])
    (by norm_num [par0]) (by norm_num [par0]) (by norm_num [par0])
    (by norm_num) (by norm_num [par0]) (by norm_num [par0])

/-- A line printed by `market_clearing_price`: either the formatted
progress record `t: p1 -> eps1` or the literal `...` separator. -/
inductive TraceLine where
  | progress (t : ℕ) (p1 eps1 : ℚ)
  | dots
deriving DecidableEq

/-- Result of running a solver call: the lines printed, in order, and the
returned value or the exception raised. -/
structure RunResult where
  trace : List TraceLine
  result : Except PyErr ℚ

/-- Convergence tolerance `eps = 1e-8` fixed inside both solver bodies. -/
def tolEps : ℚ := 1 / 100000000

/-- The `while True` loop of `market_clearing_price`, with fuel bounding
the number of loop entries.  Each entry evaluates
`check_market_clearing(p1)`, then the condition
`np.abs(eps1) < eps or t >= maxitter` (the `np.abs` lookup can raise),
prints and breaks on the condition, otherwise updates
`p1 = p1 + 0.5*eps1/par.alpha`, prints progress for `t < 5`, `t % 25 == 0`
or `t == 5`, increments `t` and repeats. -/
def mcpLoop (par : Par) (maxitter : ℕ) : ℕ → ℚ → ℕ → RunResult
  | 0, _, _ => RunResult.mk [] (Except.error PyErr.outOfFuel)
  | fuel + 1, p1, t =>
    match check_market_clearing par p1 with
    | Except.error e => RunResult.mk [] (Except.error e)
    | Except.ok (eps1, _eps2) =>
      match npAbs eps1 with
      | Except.error e => RunResult.mk [] (Except.error e)
      | Except.ok a =>
        if a < tolEps ∨ maxitter ≤ t then
          RunResult.mk [TraceLine.progress t p1 eps1] (Except.ok p1)
        else
          match pyDiv (1/2 * eps1) par.alpha with
          | Except.error e => RunResult.mk [] (Except.error e)
          | Except.ok d =>
            let p1u := p1 + d
            let pre : List TraceLine :=
              if t < 5 ∨ t % 25 = 0 then [TraceLine.progress t p1u eps1]
              else if t = 5 then [TraceLine.dots] else []
            let rest := mcpLoop par maxitter fuel p1u (t + 1)
            RunResult.mk (pre ++ rest.trace) rest.result

/-- `market_clearing_price(self, p1, maxitter)`.  The loop increments `t`
once per non-breaking pass and breaks once `t >= maxitter`, so
`maxitter + 1` loop entries are enough fuel. -/
def market_clearing_price (par : Par) (p1 : ℚ) (maxitter : ℕ) : RunResult :=
  mcpLoop par maxitter (maxitter + 1) p1 0

/-- The `while True` loop of `market_clearing_price_Q8`: identical to
`mcpLoop` except that it prints nothing. -/
def mcpQ8Loop (par : Par) (maxitter : ℕ) : ℕ → ℚ → ℕ → RunResult
  | 0, _, _ => RunResult.mk [] (Except.error PyErr.outOfFuel)
  | fuel + 1, p1, t =>
    match check_market_clearing par p1 with
    | Except.error e => RunResult.mk [] (Except.error e)
    | Except.ok (eps1, _eps2) =>
      match npAbs eps1 with
      | Except.error e => RunResult.mk [] (Except.error e)
      | Except.ok a =>
        if a < tolEps ∨ maxitter ≤ t then
          RunResult.mk [] (Except.ok p1)
        else
          match pyDiv (1/2 * eps1) par.alpha with
          | Except.error e => RunResult.mk [] (Except.error e)
          | Except.ok d =>
            mcpQ8Loop par maxitter fuel (p1 + d) (t + 1)

/-- `market_clearing_price_Q8(self, p1, maxitter)`. -/
def market_clearing_price_Q8 (par : Par) (p1 : ℚ) (maxitter : ℕ) : RunResult :=
  mcpQ8Loop par maxitter (maxitter + 1) p1 0

lemma npAbs_error (q : ℚ) : npAbs q = Except.error PyErr.nameErrorNp := by
  simp [npAbs, numpyImported]

lemma mcp_nameError (par : Par) {p1 : ℚ} (hp : p1 ≠ 0) (m : ℕ) :
    market_clearing_price par p1 m =
      RunResult.mk [] (Except.error PyErr.nameErrorNp) := by
  rw [market_clearing_price, mcpLoop, check_market_clearing_eq par hp]
  simp [npAbs_error]

lemma mcpQ8_nameError (par : Par) {p1 : ℚ} (hp : p1 ≠ 0) (m : ℕ) :
    market_clearing_price_Q8 par p1 m =
      RunResult.mk [] (Except.error PyErr.nameErrorNp) := by
  rw [market_clearing_price_Q8, mcpQ8Loop, check_market_clearing_eq par hp]
  simp [npAbs_error]

lemma mcp_zeroDivision (par : Par) (m : ℕ) :
    market_clearing_price par 0 m =
      RunResult.mk [] (Except.error PyErr.zeroDivision) := by
  rw [market_clearing_price, mcpLoop, check_market_clearing_zero par]

lemma mcpQ8_zeroDivision (par : Par) (m : ℕ) :
    market_clearing_price_Q8 par 0 m =
      RunResult.mk [] (Except.error PyErr.zeroDivision) := by
  rw [market_clearing_price_Q8, mcpQ8Loop, check_market_clearing_zero par]

/-- C1 (amended): for every nonzero initial price and every iteration
budget, both solver entry points raise the `NameError` for the unbound
name `np` before returning a price. -/
theorem C1_np_unbound (par : Par) (p1 : ℚ) (m : ℕ) (hp : p1 ≠ 0) :
    (market_clearing_price par p1 m).result = Except.error PyErr.nameErrorNp ∧
      (market_clearing_price_Q8 par p1 m).result = Except.error PyErr.nameErrorNp := by
  rw [mcp_nameError par hp m, mcpQ8_nameError par hp m]
  exact ⟨rfl, rfl⟩

/-- Witness for C1 at `p1 = 3/2`, `maxitter = 500`. -/
theorem C1_np_unbound_witness :
    ((3 : ℚ)/2 ≠ 0) ∧
      ((market_clearing_price par0 (3/2) 500).result = Except.error PyErr.nameErrorNp ∧
        (market_clearing_price_Q8 par0 (3/2) 500).result = Except.error PyErr.nameErrorNp) :=
  ⟨by norm_num, C1_np_unbound par0 (3/2) 500 (by norm_num)⟩

/-- C1 counterexample: at the initial price `p1 = 0` the call fails with a
`ZeroDivisionError` inside `check_market_clearing`, not with the
unbound-name error, so "for every initial price ... fails with an
unbound-name error" is false as stated. -/
theorem C1_zero_price_cx :
    (market_clearing_price par0 0 500).result = Except.error PyErr.zeroDivision ∧
      PyErr.zeroDivision ≠ PyErr.nameErrorNp :=
  ⟨by rw [mcp_zeroDivision par0 500], by decide⟩

/-- C3: the documented default run (`p1_0 = 1.5`, default parameters,
`maxitter = 500`) does not converge to an equilibrium price; it raises the
`NameError` for `np` at the first convergence test and returns nothing. -/
theorem C3_default_run_raises :
    (market_clearing_price par0 (3/2) 500).result = Except.error PyErr.nameErrorNp := by
  rw [mcp_nameError par0 (by norm_num : (3 : ℚ)/2 ≠ 0) 500]

/-- C4: at the default run the loop body never reaches the price update
nor either exit: the `Q8` variant raises the `NameError` for `np`, and the
printing variant emits no progress line before raising. -/
theorem C4_loop_body_never_runs :
    (market_clearing_price_Q8 par0 (3/2) 500).result = Except.error PyErr.nameErrorNp ∧
      (market_clearing_price par0 (3/2) 500).trace = [] := by
  rw [mcpQ8_nameError par0 (by norm_num : (3 : ℚ)/2 ≠ 0) 500,
      mcp_nameError par0 (by norm_num : (3 : ℚ)/2 ≠ 0) 500]
  exact ⟨rfl, rfl⟩

/-- C5 (amended): with `alpha = 0` both solver variants fail with the
unbound-name error for `np` (before the division by `alpha` is ever
reached); neither variant performs an invalid-parameter validation. -/
theorem C5_alpha_zero_nameError (b w1 w2 p1 : ℚ) (m : ℕ) (hp : p1 ≠ 0) :
    (market_clearing_price_Q8 (Par.mk 0 b w1 w2) p1 m).result
        = Except.error PyErr.nameErrorNp ∧
      (market_clearing_price (Par.mk 0 b w1 w2) p1 m).result
        = Except.error PyErr.nameErrorNp := by
  rw [mcpQ8_nameError (Par.mk 0 b w1 w2) hp m, mcp_nameError (Par.mk 0 b w1 w2) hp m]
  exact ⟨rfl, rfl⟩

/-- Witness for C5 with `beta = 2/3`, endowments of the constructor,
`p1 = 1`, `maxitter = 500`. -/
theorem C5_alpha_zero_nameError_witness :
    ((1 : ℚ) ≠ 0) ∧
      ((market_clearing_price_Q8 (Par.mk 0 (2/3) (4/5) (3/10)) 1 500).result
          = Except.error PyErr.nameErrorNp ∧
        (market_clearing_price (Par.mk 0 (2/3) (4/5) (3/10)) 1 500).result
          = Except.error PyErr.nameErrorNp) :=
  ⟨by norm_num, C5_alpha_zero_nameError (2/3) (4/5) (3/10) 1 500 (by norm_num)⟩

/-- C5 counterexample: calling `market_clearing_price_Q8` with
`alpha = 0` raises the unbound-name error for `np`, not an explicit
invalid-parameter error; no validating "strict" variant exists. -/
theorem C5_no_validation_cx :
    (market_clearing_price_Q8 (Par.mk 0 (2/3) (4/5) (3/10)) 1 500).result
        = Except.error PyErr.nameErrorNp ∧
      PyErr.nameErrorNp ≠ PyErr.invalidParameter :=
  ⟨by rw [mcpQ8_nameError (Par.mk 0 (2/3) (4/5) (3/10)) (by norm_num : (1 : ℚ) ≠ 0) 500],
    by decide⟩

/-- C6 (amended): with `maxitter = 0` and a nonzero initial price, both
solvers raise the unbound-name error for `np` before returning; no price
is returned and nothing at all is printed (so no warning either). -/
theorem C6_maxitter_zero (p1 : ℚ) (hp : p1 ≠ 0) :
    (market_clearing_price par0 p1 0).result = Except.error PyErr.nameErrorNp ∧
      (market_clearing_price par0 p1 0).trace = [] ∧
      (market_clearing_price_Q8 par0 p1 0).result = Except.error PyErr.nameErrorNp := by
  rw [mcp_nameError par0 hp 0, mcpQ8_nameError par0 hp 0]
  exact ⟨rfl, rfl, rfl⟩

/-- Witness for C6 at `p1 = 1`. -/
theorem C6_maxitter_zero_witness :
    ((1 : ℚ) ≠ 0) ∧
      ((market_clearing_price par0 1 0).result = Except.error PyErr.nameErrorNp ∧
        (market_clearing_price par0 1 0).trace = [] ∧
        (market_clearing_price_Q8 par0 1 0).result = Except.error PyErr.nameErrorNp) :=
  ⟨by norm_num, C6_maxitter_zero 1 (by norm_num)⟩

/-- C6 counterexample: with `maxitter = 0` and `p1 = 3/2` the call does
not return the initial price; it raises the unbound-name error for `np`,
and an error is not the value `Except.ok (3/2)`. -/
theorem C6_no_return_cx :
    (market_clearing_price par0 (3/2) 0).result = Except.error PyErr.nameErrorNp ∧
      (Except.error PyErr.nameErrorNp ≠ (Except.ok (3/2) : Except PyErr ℚ)) :=
  ⟨by rw [mcp_nameError par0 (by norm_num : (3 : ℚ)/2 ≠ 0) 0],
    fun h => Except.noConfusion h⟩

/-- C9 (amended): for every parameter set, initial price and iteration
budget the two solver variants produce identical outcomes — here always
the same raised error, never a returned price; they differ only in their
printing and neither validates `alpha`. -/
theorem C9_results_agree (par : Par) (p1 : ℚ) (m : ℕ) :
    (market_clearing_price par p1 m).result
      = (market_clearing_price_Q8 par p1 m).result := by
  by_cases hp : p1 = 0
  · subst hp
    rw [mcp_zeroDivision par m, mcpQ8_zeroDivision par m]
  · rw [mcp_nameError par hp m, mcpQ8_nameError par hp m]

/-- C9 counterexample: at `p1 = 2`, `maxitter = 100` neither variant
returns a price at all — both raise the unbound-name error — so "both
return the same price" is false as stated. -/
theorem C9_no_price_cx :
    (market_clearing_price par0 2 100).result = Except.error PyErr.nameErrorNp ∧
      (market_clearing_price_Q8 par0 2 100).result = Except.error PyErr.nameErrorNp :=
  ⟨by rw [mcp_nameError par0 (by norm_num : (2 : ℚ) ≠ 0) 100],
    by rw [mcpQ8_nameError par0 (by norm_num : (2 : ℚ) ≠ 0) 100]⟩

/-- `utility_A(self, x1A, x2A) = x1A**alpha * x2A**(1-alpha)`, modelled
with real powers. -/
noncomputable def utility_A (par : Par) (x1A x2A : ℝ) : ℝ :=
  x1A ^ (par.alpha : ℝ) * x2A ^ ((1 : ℝ) - (par.alpha : ℝ))

/-- `utility_B(self, x1B, x2B) = x1B**beta * x2B**(1-beta)`, modelled
with real powers. -/
noncomputable def utility_B (par : Par) (x1B x2B : ℝ) : ℝ :=
  x1B ^ (par.beta : ℝ) * x2B ^ ((1 : ℝ) - (par.beta : ℝ))

/-- The retention test of `question1`: both agents weakly prefer the
allocation `(x1A, x2A)` (with `x1B = 1-x1A`, `x2B = 1-x2A`) to their own
endowment. -/
def question1Cond (par : Par) (x1A x2A : ℚ) : Prop :=
  utility_A par (x1A : ℝ) (x2A : ℝ) ≥ utility_A par (par.w1A : ℝ) (par.w2A : ℝ) ∧
    utility_B par ((1 - x1A : ℚ) : ℝ) ((1 - x2A : ℚ) : ℝ)
      ≥ utility_B par ((1 - par.w1A : ℚ) : ℝ) ((1 - par.w2A : ℚ) : ℝ)

open Classical in
/-- The allocation set accumulated by `question1`: the nested enumeration
over the 76 by 76 grid `(j/75, i/75)`, retaining the pairs passing
`question1Cond`; the source stores the two coordinates in the parallel
lists `self.list_x1A` and `self.list_x2A`. -/
noncomputable def question1Pairs (par : Par) : List (ℚ × ℚ) :=
  (List.range 76).flatMap fun (j : ℕ) =>
    (List.range 76).filterMap fun (i : ℕ) =>
      if question1Cond par ((j : ℚ) / 75) ((i : ℚ) / 75) then
        some ((j : ℚ) / 75, (i : ℚ) / 75)
      else none

/-- C8: whenever the endowment lands exactly on the grid
(`w1A = j/75`, `w2A = i/75` with `j, i < 76`), the allocation set of
`question1` contains the endowment point, because the comparison against
the endowment utilities is the non-strict `>=`. -/
theorem question1_contains_endowment (par : Par) (j i : ℕ)
    (hj : j < 76) (hi : i < 76)
    (h1 : par.w1A = (j : ℚ) / 75) (h2 : par.w2A = (i : ℚ) / 75) :
    (par.w1A, par.w2A) ∈ question1Pairs par := by
  have hc : question1Cond par ((j : ℚ) / 75) ((i : ℚ) / 75) := by
    unfold question1Cond
    rw [← h1, ← h2]
    exact ⟨le_refl _, le_refl _⟩
  unfold question1Pairs
  rw [List.mem_flatMap]
  refine ⟨j, List.mem_range.mpr hj, ?_⟩
  rw [List.mem_filterMap]
  refine ⟨i, List.mem_range.mpr hi, ?_⟩
  rw [if_pos hc, h1, h2]

/-- Witness for C8: the economy with `w1A = 4/5 = 60/75` and
`w2A = 1/5 = 15/75` has its endowment on the grid, and `question1`
retains it. -/
theorem question1_contains_endowment_witness :
    ((Par.mk (1/3) (2/3) (4/5) (1/5)).w1A = ((60 : ℕ) : ℚ) / 75 ∧
        (Par.mk (1/3) (2/3) (4/5) (1/5)).w2A = ((15 : ℕ) : ℚ) / 75) ∧
      ((Par.mk (1/3) (2/3) (4/5) (1/5)).w1A, (Par.mk (1/3) (2/3) (4/5) (1/5)).w2A)
        ∈ question1Pairs (Par.mk (1/3) (2/3) (4/5) (1/5)) :=
  ⟨⟨by norm_num, by norm_num⟩,
    question1_contains_endowment (Par.mk (1/3) (2/3) (4/5) (1/5)) 60 15
      (by norm_num) (by norm_num) (by norm_num) (by norm_num)⟩

/-- The instance state of `ExchangeEconomyClass`: the parameter namespace
`self.par` plus the accumulator lists installed by the two sweep methods
(modelled as present and empty before the sweeps run). -/
structure Econ where
  par : Par
  list_x1A : List ℚ
  list_x2A : List ℚ
  price_list : List ℚ
  error1 : List ℚ
  error2 : List ℚ

/-- `question1(self)`: replaces `self.list_x1A` and `self.list_x2A` by
freshly computed lists; everything else, in particular `self.par`, is
untouched. -/
noncomputable def question1Run (e : Econ) : Econ :=
  Econ.mk e.par
    ((question1Pairs e.par).map Prod.fst)
    ((question1Pairs e.par).map Prod.snd)
    e.price_list e.error1 e.error2

/-- The loop of `question2(self)`: for `var` in `0..75`, evaluate
`check_market_clearing(0.5 + 2*(var/75))` and append the price and the
two errors to the three accumulator lists. -/
def q2Go (par : Par) : List ℕ → List ℚ → List ℚ → List ℚ →
    Except PyErr (List ℚ × List ℚ × List ℚ)
  | [], ps, e1s, e2s => Except.ok (ps, e1s, e2s)
  | v :: rest, ps, e1s, e2s =>
    match check_market_clearing par (1/2 + 2 * ((v : ℚ) / 75)) with
    | Except.error e => Except.error e
    | Except.ok (eps1, eps2) =>
      q2Go par rest (ps ++ [1/2 + 2 * ((v : ℚ) / 75)]) (e1s ++ [eps1]) (e2s ++ [eps2])

/-- `question2(self)`: replaces `self.price_list`, `self.error1` and
`self.error2` by freshly computed lists; `self.par` is untouched. -/
def question2Run (e : Econ) : Except PyErr Econ :=
  match q2Go e.par (List.range 76) [] [] [] with
  | Except.error err => Except.error err
  | Except.ok (ps, e1s, e2s) => Except.ok (Econ.mk e.par e.list_x1A e.list_x2A ps e1s e2s)

lemma q2Go_ok (par : Par) (vs : List ℕ) :
    ∀ ps e1s e2s, ∃ out, q2Go par vs ps e1s e2s = Except.ok out := by
  induction vs with
  | nil => intro ps e1s e2s; exact ⟨(ps, e1s, e2s), rfl⟩
  | cons v rest ih =>
    intro ps e1s e2s
    have hpos : (0 : ℚ) < 1/2 + 2 * ((v : ℚ) / 75) := by positivity
    rw [q2Go, check_market_clearing_eq par hpos.ne']
    exact ih _ _ _

/-- C10: the parameters set at construction are left unchanged by the two
mutating sweep methods (all other operations are pure functions of
`par`), and the sweeps only replace their accumulator lists by freshly
computed ones: two instances with the same parameters get identical fresh
lists, regardless of any previously stored lists. -/
theorem params_immutable (e e2 : Econ) (hpar : e.par = e2.par) :
    (question1Run e).par = e.par ∧
      (question1Run e).list_x1A = (question1Run e2).list_x1A ∧
      (question1Run e).list_x2A = (question1Run e2).list_x2A ∧
      (∃ r, question2Run e = Except.ok r ∧ r.par = e.par ∧
        ∀ r2, question2Run e2 = Except.ok r2 →
          r.price_list = r2.price_list ∧ r.error1 = r2.error1 ∧ r.error2 = r2.error2) := by
  obtain ⟨out, hout⟩ := q2Go_ok e.par (List.range 76) [] [] []
  obtain ⟨ps, e1s, e2s⟩ := out
  refine ⟨rfl, ?_, ?_, ?_⟩
  · show (question1Pairs e.par).map Prod.fst = (question1Pairs e2.par).map Prod.fst
    rw [hpar]
  · show (question1Pairs e.par).map Prod.snd = (question1Pairs e2.par).map Prod.snd
    rw [hpar]
  · refine ⟨Econ.mk e.par e.list_x1A e.list_x2A ps e1s e2s, ?_, rfl, ?_⟩
    · unfold question2Run
      rw [hout]
    · intro r2 hr2
      unfold question2Run at hr2
      rw [← hpar, hout] at hr2
      simp only [Except.ok.injEq] at hr2
      rw [← hr2]
      exact ⟨rfl, rfl, rfl⟩

/-- Witness for C10: two instances with the constructor parameters but
different stored lists. -/
theorem params_immutable_witness :
    ((Econ.mk par0 [] [] [] [] []).par = (Econ.mk par0 [0] [] [] [] []).par) ∧
      ((question1Run (Econ.mk par0 [] [] [] [] [])).par = (Econ.mk par0 [] [] [] [] []).par ∧
        (question1Run (Econ.mk par0 [] [] [] [] [])).list_x1A
          = (question1Run (Econ.mk par0 [0] [] [] [] [])).list_x1A ∧
        (question1Run (Econ.mk par0 [] [] [] [] [])).list_x2A
          = (question1Run (Econ.mk par0 [0] [] [] [] [])).list_x2A ∧
        (∃ r, question2Run (Econ.mk par0 [] [] [] [] []) = Except.ok r ∧
          r.par = (Econ.mk par0 [] [] [] [] []).par ∧
          ∀ r2, question2Run (Econ.mk par0 [0] [] [] [] []) = Except.ok r2 →
            r.price_list = r2.price_list ∧ r.error1 = r2.error1 ∧ r.error2 = r2.error2)) :=
  ⟨rfl, params_immutable (Econ.mk par0 [] [] [] [] []) (Econ.mk par0 [0] [] [] [] []) rfl⟩
